import Mathlib

/-!
A shallow embedding of drake/systems/framework/system_base.cc (SystemBase and
its interaction with ContextBase), with theorems checking the natural-language
specification of the framework core against the code.

Conventions of the embedding:
* C++ machine integers that stay small (ticket numbers, indices, counts) are
  Nat, with Int used where the source accepts a possibly negative index.
* AbstractValue payloads are opaque to this layer, so they are abstracted as
  natural-number tokens.
* A C++ function that throws is modeled as returning a structured error value;
  the constructor arguments of the error mirror exactly the arguments handed
  to fmt::format when the exception message is built.
* Mutation of a SystemBase or ContextBase is modeled by explicit state
  passing; a function that throws before mutating returns the unchanged state
  together with the error.
-/

namespace DrakeSystemBase

/-- Opaque runtime values (C++ AbstractValue). The framework logic never looks
inside them, so they are abstracted as natural-number tokens. -/
abbrev AbstractValue := Nat

/-- DependencyTicket: a type-safe small integer identity. -/
abbrev DependencyTicket := Nat

/-- SystemBase::TrackerInfo: the (ticket, description) pair stored for each
declared independent-source item (state group or parameter). -/
structure TrackerInfo where
  ticket : DependencyTicket
  description : String
deriving DecidableEq

/-- ValueProducer, reduced to what system_base.cc consumes: the Allocate()
capability (the value it would produce). Calculate is never invoked by the
code under study. -/
structure ValueProducer where
  allocate_value : AbstractValue
deriving DecidableEq

/-- CacheEntry descriptor: index, ticket, description, producer, prerequisite
tickets, and the disabled-by-default flag. -/
structure CacheEntry where
  cache_index : Nat
  ticket : DependencyTicket
  description : String
  value_producer : ValueProducer
  prerequisites : List DependencyTicket
  disabled_by_default : Bool
deriving DecidableEq

/-- CacheEntry::Allocate(): delegates to the value producer. -/
def CacheEntry.Allocate (e : CacheEntry) : AbstractValue :=
  e.value_producer.allocate_value

/-- The error kinds raised by the code under study. -/
inductive FrameworkError where
  | preconditionViolation
deriving DecidableEq

/-- Modelled from the spec: the CacheEntry constructor lives in cache_entry.cc,
which is not under src/. system_base.cc lines 68 and 69 document its behavior
("If the prerequisite list is empty the CacheEntry constructor will throw a
logic error") and spec section 4.1 classifies that throw as a
PreconditionViolation; otherwise the constructor records the given fields,
with caching enabled by default. -/
def CacheEntry.make (index : Nat) (known_ticket : DependencyTicket)
    (description : String) (value_producer : ValueProducer)
    (prerequisites_of_calc : List DependencyTicket) :
    Except FrameworkError CacheEntry :=
  if prerequisites_of_calc.isEmpty then
    .error .preconditionViolation
  else
    .ok { cache_index := index, ticket := known_ticket, description,
          value_producer, prerequisites := prerequisites_of_calc,
          disabled_by_default := false }

/-- InputPortBase, reduced to the fields system_base.cc reads: name, ticket,
optional deprecation message. -/
structure InputPortBase where
  name : String
  ticket : DependencyTicket
  deprecation : Option String
deriving DecidableEq

/-- OutputPortBase, reduced to the fields system_base.cc reads: name, ticket,
the intra-system prerequisite reported by GetPrerequisite(), and an optional
deprecation message. -/
structure OutputPortBase where
  name : String
  ticket : DependencyTicket
  prerequisite : DependencyTicket
  deprecation : Option String
deriving DecidableEq

/-- The parent-composition service (internal::SystemParentServiceInterface),
reduced to what system_base.cc consumes: GetParentPathname() and the identity
of GetRootSystemBase(). A SystemBase with no enclosing composition holds
none. -/
structure ParentService where
  parent_pathname : String
  root_system_id : Nat
deriving DecidableEq

/-- SystemBase (declaration side). -/
structure SystemBase where
  name : String
  /-- GetSystemType(): the NiceTypeName of the concrete subclass. -/
  system_type : String
  system_id : Nat
  parent_service : Option ParentService
  input_ports : List InputPortBase
  output_ports : List OutputPortBase
  cache_entries : List CacheEntry
  next_dependency_ticket : DependencyTicket
  discrete_state_tickets : List TrackerInfo
  abstract_state_tickets : List TrackerInfo
  numeric_parameter_tickets : List TrackerInfo
  abstract_parameter_tickets : List TrackerInfo
deriving DecidableEq

def SystemBase.num_input_ports (s : SystemBase) : Nat := s.input_ports.length

def SystemBase.num_cache_entries (s : SystemBase) : Nat := s.cache_entries.length

/-- internal::SystemMessageInterface::path_separator(). -/
def path_separator : String := "::"

/-- SystemBase::GetSystemPathname: the parent pathname (empty for a root
System), the separator, then this System name. -/
def SystemBase.GetSystemPathname (s : SystemBase) : String :=
  (match s.parent_service with
   | some ps => ps.parent_pathname
   | none => "") ++ path_separator ++ s.name

/-- The ancestor chain of a ContextBase: the get_parent_base links, each node
tagged with that ancestor Context system identity. A root Context has no
chain. -/
inductive ContextAncestors where
  | top (system_id : Nat)
  | up (system_id : Nat) (parent : ContextAncestors)
deriving DecidableEq

/-- The identity of the topmost Context of an ancestor chain. -/
def ContextAncestors.root_system_id : ContextAncestors → Nat
  | .top i => i
  | .up _ p => p.root_system_id

/-- CacheEntryValue: the per-Context runtime slot paired to one CacheEntry. -/
structure CacheEntryValue where
  cache_index : Nat
  ticket : DependencyTicket
  description : String
  /-- none models the uncomputed placeholder before SetInitialValue runs. -/
  stored_value : Option AbstractValue
  caching_enabled : Bool
deriving DecidableEq

/-- The dependency graph owned by one Context: registered trackers and the
subscription edges (subscriber ticket, prerequisite ticket). -/
structure DependencyGraph where
  trackers : List (DependencyTicket × String)
  subscriptions : List (DependencyTicket × DependencyTicket)
deriving DecidableEq

/-- ContextBase (runtime side), reduced to the state system_base.cc reads or
writes. The pathname field stands for ContextBase::GetSystemPathname, whose
implementation lives in context_base.cc outside src/. -/
structure ContextBase where
  system_name : String
  system_id : Nat
  is_context_base_initialized : Bool
  /-- Per input-port slot: the caller-fixed value, if any. -/
  fixed_input_port_values : List (Option AbstractValue)
  /-- The tickets recorded through the Add...Ticket attorney calls. -/
  source_tickets : List DependencyTicket
  /-- The (index, ticket) pairs recorded through AddInputPort. -/
  input_ports_added : List (Nat × DependencyTicket)
  /-- The (index, ticket, prerequisite) triples recorded through AddOutputPort. -/
  output_ports_added : List (Nat × DependencyTicket × DependencyTicket)
  graph : DependencyGraph
  cache : List CacheEntryValue
  pathname : String
  parent : Option ContextAncestors
deriving DecidableEq

/-- ContextBase::is_root_context(): no parent Context. -/
def ContextBase.is_root_context (ctx : ContextBase) : Bool := ctx.parent.isNone

/-- ContextBase::MaybeGetFixedInputPortValue(index): the fixed value slot of
that port, if one was supplied (context_base side; a lookup in the per-port
vector). -/
def ContextBase.MaybeGetFixedInputPortValue (ctx : ContextBase)
    (port_index : Nat) : Option AbstractValue :=
  ctx.fixed_input_port_values.getD port_index none

/-- The identity of the transitive root Context of a given Context: the code
walks get_parent_base until null and reads that Context system id
(system_base.cc lines 312 to 323). -/
def ContextBase.root_context_system_id (ctx : ContextBase) : Nat :=
  match ctx.parent with
  | none => ctx.system_id
  | some chain => chain.root_system_id

/-- The structured content of the exceptions thrown by the port-index checks.
Each constructor carries exactly the values interpolated into the
fmt::format call that builds the message. -/
inductive PortEvalError where
  | negativePortIndex (func : String) (port_index : Int)
      (system_pathname : String)
  | inputPortIndexOutOfRange (func : String) (port_index : Nat)
      (num_input_ports : Nat) (system_pathname : String)
deriving DecidableEq

/-- The C++ exception class used for each error. Both port-index checks throw
std::out_of_range. -/
inductive CppExceptionKind where
  | outOfRange
  | logicError
deriving DecidableEq

def PortEvalError.kind : PortEvalError → CppExceptionKind
  | .negativePortIndex .. => .outOfRange
  | .inputPortIndexOutOfRange .. => .outOfRange

/-- The index interpolated into the message. -/
def PortEvalError.named_index : PortEvalError → Int
  | .negativePortIndex _ i _ => i
  | .inputPortIndexOutOfRange _ i _ _ => (i : Int)

/-- The declared input-port count interpolated into the message, when the
format string has a count argument at all. -/
def PortEvalError.named_count : PortEvalError → Option Nat
  | .negativePortIndex .. => none
  | .inputPortIndexOutOfRange _ _ n _ => some n

/-- The system pathname interpolated into the message. -/
def PortEvalError.named_pathname : PortEvalError → String
  | .negativePortIndex _ _ p => p
  | .inputPortIndexOutOfRange _ _ _ p => p

/-- FmtFunc: renders "System::func()". -/
def FmtFunc (func : String) : String := "System::" ++ func ++ "()"

/-- The rendered message text, mirroring the fmt::format strings of
ThrowNegativePortIndex and ThrowInputPortIndexOutOfRange. -/
def PortEvalError.message : PortEvalError → String
  | .negativePortIndex func i path =>
      FmtFunc func ++ ": negative port index " ++ toString i ++
      " is illegal. (System " ++ path ++ ")"
  | .inputPortIndexOutOfRange func i n path =>
      FmtFunc func ++ ": there is no input port with index " ++ toString i ++
      " because there are only " ++ toString n ++ " input ports in system " ++
      path ++ "."

/-- SystemBase::ThrowNegativePortIndex (lines 222 to 228). Its DRAKE_DEMAND
requires port_index < 0; the message names the function, the index and the
pathname, and no count. -/
def SystemBase.ThrowNegativePortIndex (s : SystemBase) (func : String)
    (port_index : Int) : PortEvalError :=
  .negativePortIndex func port_index s.GetSystemPathname

/-- SystemBase::ThrowInputPortIndexOutOfRange (lines 230 to 236): the message
names the function, the index, num_input_ports() and the pathname. -/
def SystemBase.ThrowInputPortIndexOutOfRange (s : SystemBase) (func : String)
    (port_index : Nat) : PortEvalError :=
  .inputPortIndexOutOfRange func port_index s.num_input_ports
    s.GetSystemPathname

/-- The possible outcomes of EvalAbstractInputImpl. The delegation to
get_parent_service()->EvalConnectedSubsystemInputPort(parent context, port) is
kept as a distinguished outcome carrying the call arguments, because the
resolver itself is Diagram code outside src/. -/
inductive EvalResult where
  | thrown (e : PortEvalError)
  | fixed_value (v : AbstractValue)
  | no_value
  | delegated_to_parent (parent_context : ContextAncestors) (port_index : Nat)
deriving DecidableEq

/-- SystemBase::EvalAbstractInputImpl (lines 193 to 220). The deprecation
warning at lines 199 and 200 is an out-of-band side channel (spec section 7:
warnings never alter a return value); it is modeled separately by
WarnPortDeprecation below. -/
def SystemBase.EvalAbstractInputImpl (s : SystemBase) (func : String)
    (context : ContextBase) (port_index : Nat) : EvalResult :=
  if s.num_input_ports ≤ port_index then
    .thrown (s.ThrowInputPortIndexOutOfRange func port_index)
  else
    match context.MaybeGetFixedInputPortValue port_index with
    | some v => .fixed_value v
    | none =>
      match s.parent_service with
      | none => .no_value
      | some _ =>
        match context.parent with
        | none => .no_value
        | some parent_base => .delegated_to_parent parent_base port_index

/-- Modelled from the spec: the negative-index guard runs in the system_base.h
callers of EvalAbstractInputImpl (GetInputPortBaseOrThrow and the EvalInput
helpers), which are not under src/. Spec section 4.5: "Fails with OutOfRange if
index is negative or greater than or equal to the declared input-port count".
A negative index reaches ThrowNegativePortIndex, whose own DRAKE_DEMAND
requires port_index < 0; a non-negative index proceeds to
EvalAbstractInputImpl. -/
def SystemBase.EvalInputPort (s : SystemBase) (func : String)
    (context : ContextBase) (port_index : Int) : EvalResult :=
  if port_index < 0 then
    .thrown (s.ThrowNegativePortIndex func port_index)
  else
    s.EvalAbstractInputImpl func context port_index.toNat

/-- SystemBase::DeclareCacheEntryWithKnownTicket (lines 64 to 76): the new
index is num_cache_entries(); the CacheEntry constructor runs first (and, on
an empty prerequisite list, throws before emplace_back mutates anything); on
success the descriptor is appended and *cache_entries_.back() is returned.
The returned pair is (SystemBase as of return or abort, thrown or returned
value). -/
def SystemBase.DeclareCacheEntryWithKnownTicket (s : SystemBase)
    (known_ticket : DependencyTicket) (description : String)
    (value_producer : ValueProducer)
    (prerequisites_of_calc : List DependencyTicket) :
    SystemBase × Except FrameworkError CacheEntry :=
  match CacheEntry.make s.num_cache_entries known_ticket description
      value_producer prerequisites_of_calc with
  | .error e => (s, .error e)
  | .ok new_entry =>
      ({ s with cache_entries := s.cache_entries ++ [new_entry] },
       .ok new_entry)

/-- Modelled from the spec: assign_next_dependency_ticket() is declared in
system_base.h, which is not under src/. Spec section 4.1: "AllocateTicket()
returns the next unused ticket, strictly ascending, irreversible". -/
def SystemBase.assign_next_dependency_ticket (s : SystemBase) :
    DependencyTicket × SystemBase :=
  (s.next_dependency_ticket,
   { s with next_dependency_ticket := s.next_dependency_ticket + 1 })

/-- SystemBase::DeclareCacheEntry (lines 56 to 62): allocate the next
dependency ticket and delegate to DeclareCacheEntryWithKnownTicket. -/
def SystemBase.DeclareCacheEntry (s : SystemBase) (description : String)
    (value_producer : ValueProducer)
    (prerequisites_of_calc : List DependencyTicket) :
    SystemBase × Except FrameworkError CacheEntry :=
  let allocated := s.assign_next_dependency_ticket
  allocated.2.DeclareCacheEntryWithKnownTicket allocated.1 description
    value_producer prerequisites_of_calc

/-- A System together with the Contexts alive in the process; used to state
that declaration-time calls touch no Context. -/
structure World where
  system : SystemBase
  contexts : List ContextBase
deriving DecidableEq

/-- DeclareCacheEntryWithKnownTicket lifted to a World: it acts on the System
registries only (spec section 4.1: "These calls only extend System-side lists;
no Context is touched"). -/
def World.DeclareCacheEntryWithKnownTicket (w : World)
    (known_ticket : DependencyTicket) (description : String)
    (value_producer : ValueProducer)
    (prerequisites_of_calc : List DependencyTicket) :
    World × Except FrameworkError CacheEntry :=
  let r := w.system.DeclareCacheEntryWithKnownTicket known_ticket description
    value_producer prerequisites_of_calc
  ({ w with system := r.1 }, r.2)

/-- Modelled from the spec: the well-known group-tracker tickets (xd, xa, pn,
pa) are built-in constants declared in framework_common.h, outside src/. Their
concrete numbers are immaterial here; only their role as subscriber
identities in CreateSourceTrackers matters. -/
def xd_ticket : DependencyTicket := 7

def xa_ticket : DependencyTicket := 8

def pn_ticket : DependencyTicket := 10

def pa_ticket : DependencyTicket := 11

/-- The make_trackers lambda of SystemBase::CreateSourceTrackers (lines 142 to
156): for each TrackerInfo, create a tracker for its ticket, record the ticket
on the Context (the Add...Ticket attorney call, whose per-kind bookkeeping
lives in context_base.cc and is modeled as one shared ticket list), and
subscribe the group tracker to the new tracker. -/
def make_trackers_step (subscriber_ticket : DependencyTicket)
    (ctx : ContextBase) (info : TrackerInfo) : ContextBase :=
  { ctx with
    graph :=
      { trackers := ctx.graph.trackers ++ [(info.ticket, info.description)],
        subscriptions :=
          ctx.graph.subscriptions ++ [(subscriber_ticket, info.ticket)] },
    source_tickets := ctx.source_tickets ++ [info.ticket] }

def make_trackers (subscriber_ticket : DependencyTicket)
    (system_ticket_info : List TrackerInfo) (context : ContextBase) :
    ContextBase :=
  system_ticket_info.foldl (make_trackers_step subscriber_ticket) context

/-- SystemBase::CreateSourceTrackers (lines 137 to 186): group trackers for
discrete state, abstract state, numeric and abstract parameters, then the
input ports. AddInputPort (context_base.cc, outside src/) is recorded as the
added (index, ticket) pair; the type-checker capability it receives is opaque
to this layer. -/
def SystemBase.CreateSourceTrackers (s : SystemBase) (context : ContextBase) :
    ContextBase :=
  let context := make_trackers xd_ticket s.discrete_state_tickets context
  let context := make_trackers xa_ticket s.abstract_state_tickets context
  let context := make_trackers pn_ticket s.numeric_parameter_tickets context
  let context := make_trackers pa_ticket s.abstract_parameter_tickets context
  { context with
    input_ports_added := context.input_ports_added ++
      s.input_ports.enum.map (fun (p : Nat × InputPortBase) => (p.1, p.2.ticket)) }

/-- One iteration of the cache-construction loop of InitializeContextBase
(lines 105 to 116). Modelled from the spec where the callee is outside src/:
Cache::CreateNewCacheEntryValue (cache.cc) creates the slot uncomputed with
caching enabled and registers a tracker subscribed to the entry prerequisites
(spec sections 4.2 step 4 and 4.4, memoization enabled unless disabled).
Then SetInitialValue(entry.Allocate()) seeds the slot, and disable_caching()
runs when the entry is disabled by default. -/
def cache_loop_step (ctx : ContextBase) (entry : CacheEntry) : ContextBase :=
  let cv0 : CacheEntryValue :=
    { cache_index := entry.cache_index, ticket := entry.ticket,
      description := entry.description, stored_value := none,
      caching_enabled := true }
  let cv1 : CacheEntryValue := { cv0 with stored_value := some entry.Allocate }
  let cv2 : CacheEntryValue :=
    if entry.disabled_by_default then { cv1 with caching_enabled := false }
    else cv1
  { ctx with
    cache := ctx.cache ++ [cv2],
    graph :=
      { trackers := ctx.graph.trackers ++ [(entry.ticket, entry.description)],
        subscriptions := ctx.graph.subscriptions ++
          entry.prerequisites.map (fun p => (entry.ticket, p)) } }

/-- The cache-construction loop over the cache entries in declaration order. -/
def cache_loop (entries : List CacheEntry) (ctx : ContextBase) : ContextBase :=
  entries.foldl cache_loop_step ctx

/-- SystemBase::InitializeContextBase (lines 78 to 130). The DRAKE_DEMAND on
an already-initialized Context aborts before any mutation; then the name and
identity are recorded, source trackers created, the cache built in
declaration order, output ports added, and the Context marked initialized.
Returns (ContextBase as of return or abort, thrown error if any). -/
def SystemBase.InitializeContextBase (s : SystemBase) (context : ContextBase) :
    ContextBase × Option FrameworkError :=
  if context.is_context_base_initialized then
    (context, some .preconditionViolation)
  else
    let context :=
      { context with system_name := s.name, system_id := s.system_id }
    let context := s.CreateSourceTrackers context
    let context := cache_loop s.cache_entries context
    let context :=
      { context with
        output_ports_added := context.output_ports_added ++
          s.output_ports.enum.map
            (fun (p : Nat × OutputPortBase) => (p.1, p.2.ticket, p.2.prerequisite)) }
    ({ context with is_context_base_initialized := true }, none)

/-- The structured content of the exceptions thrown by
ThrowValidateContextMismatch, one constructor per message, carrying the
values interpolated into the corresponding fmt::format call. -/
inductive ContextMismatchError where
  | rootContextPassedToSubsystem (system_type : String)
      (system_pathname : String)
  | subcontextPassedToRoot (context_pathname : String)
  | genericMismatch (system_type : String) (system_pathname : String)
      (context_pathname : String)
deriving DecidableEq

/-- The second and third checks of ThrowValidateContextMismatch (lines 310 to
337): if the transitive root of the passed Context was created by this
System, the subcontext-passed-to-root message; otherwise the generic
mismatch. -/
def SystemBase.validate_context_mismatch_tail (s : SystemBase)
    (context : ContextBase) : ContextMismatchError :=
  if context.root_context_system_id = s.system_id then
    .subcontextPassedToRoot context.pathname
  else
    .genericMismatch s.system_type s.GetSystemPathname context.pathname

/-- SystemBase::ThrowValidateContextMismatch (lines 286 to 337). The first
check (lines 296 to 308) runs only for a subsystem in a Diagram and compares
the passed Context own tagged identity against the root System identity; the
remaining checks follow. The C++ function always throws; here the codomain is
the error type, so every call produces exactly one of the three messages. -/
def SystemBase.ThrowValidateContextMismatch (s : SystemBase)
    (context : ContextBase) : ContextMismatchError :=
  match s.parent_service with
  | some ps =>
      if context.system_id = ps.root_system_id then
        .rootContextPassedToSubsystem s.system_type s.GetSystemPathname
      else
        s.validate_context_mismatch_tail context
  | none => s.validate_context_mismatch_tail context

/-- The process-wide deduplication key of WarnPortDeprecation: the C++ hashes
(GetSystemType(), is_input, port name) with FNV1a, a deterministic function of
the triple, and dedups on the hash; the triple itself stands for the hash
here. -/
structure PortWarnKey where
  system_type : String
  is_input : Bool
  port_name : String
deriving DecidableEq

/-- One WarnPortDeprecation call: port_instance identifies the PortBase object
(the atomic per-instance deprecation_already_warned flag lives on it), and
key is the process-wide deduplication key derived from that port. -/
structure WarnCall where
  port_instance : Nat
  key : PortWarnKey
deriving DecidableEq

/-- The process-wide mutable state read by WarnPortDeprecation: which port
instances have their atomic flag set, and the g_warned_hash set guarded by
g_mutex. -/
structure WarnProcessState where
  instance_warned : List Nat
  g_warned_hash : List PortWarnKey
deriving DecidableEq

/-- SystemBase::WarnPortDeprecation (lines 353 to 398), as a step on the
process state; the Bool reports whether the warning was emitted. The atomic
exchange(true) sets the per-instance flag and short-circuits when it was
already set; otherwise the key is inserted into g_warned_hash under the lock,
and the warning is emitted only when the insertion actually happened. -/
def WarnPortDeprecation (st : WarnProcessState) (call : WarnCall) :
    WarnProcessState × Bool :=
  let had_already_warned := call.port_instance ∈ st.instance_warned
  let st1 : WarnProcessState :=
    { st with instance_warned := call.port_instance :: st.instance_warned }
  if had_already_warned then (st1, false)
  else if call.key ∈ st1.g_warned_hash then (st1, false)
  else ({ st1 with g_warned_hash := call.key :: st1.g_warned_hash }, true)

/-- A sequence of WarnPortDeprecation calls, returning the keys of the
warnings emitted, in order. -/
def warn_run (st : WarnProcessState) : List WarnCall → List PortWarnKey
  | [] => []
  | call :: rest =>
      let step := WarnPortDeprecation st call
      (if step.2 then [call.key] else []) ++ warn_run step.1 rest

/-- The state of a process at startup: no per-instance flag set, empty
g_warned_hash. -/
def warn_initial_state : WarnProcessState :=
  { instance_warned := [], g_warned_hash := [] }

/-! ### Concrete fixtures used by the witness theorems -/

/-- A dependency graph with no trackers, for the concrete examples. -/
def empty_graph : DependencyGraph := { trackers := [], subscriptions := [] }

/-- A freshly constructed root ContextBase with one unfixed input slot. -/
def fresh_context : ContextBase :=
  { system_name := "", system_id := 0, is_context_base_initialized := false,
    fixed_input_port_values := [none], source_tickets := [],
    input_ports_added := [], output_ports_added := [], graph := empty_graph,
    cache := [], pathname := "::plant", parent := none }

/-- A root System (no enclosing composition) with one input port. -/
def sample_root_system : SystemBase :=
  { name := "plant", system_type := "Plant", system_id := 1,
    parent_service := none,
    input_ports := [{ name := "u0", ticket := 20, deprecation := none }],
    output_ports := [], cache_entries := [], next_dependency_ticket := 30,
    discrete_state_tickets := [], abstract_state_tickets := [],
    numeric_parameter_tickets := [], abstract_parameter_tickets := [] }

/-! ### C1: a caller-fixed value short-circuits input-port evaluation -/

/-- C1: for every Context and in-range input-port index, if the Context holds
a caller-fixed value for that port, EvalAbstractInputImpl returns exactly that
value. In particular the result is never the delegated_to_parent outcome, so
the parent service is not consulted and no hierarchy walk happens. -/
theorem eval_fixed_input_short_circuits (s : SystemBase) (func : String)
    (context : ContextBase) (port_index : Nat) (v : AbstractValue)
    (hrange : port_index < s.num_input_ports)
    (hfixed : context.MaybeGetFixedInputPortValue port_index = some v) :
    s.EvalAbstractInputImpl func context port_index = .fixed_value v := by
  have hnot : ¬ s.num_input_ports ≤ port_index := Nat.not_le.mpr hrange
  simp [SystemBase.EvalAbstractInputImpl, hnot, hfixed]

/-- C1 witness: a concrete fixed input evaluates to its fixed value. -/
theorem eval_fixed_input_short_circuits_witness :
    sample_root_system.EvalAbstractInputImpl "EvalAbstractInput"
      { fresh_context with fixed_input_port_values := [some 42] } 0 =
      .fixed_value 42 :=
  eval_fixed_input_short_circuits sample_root_system "EvalAbstractInput"
    { fresh_context with fixed_input_port_values := [some 42] } 0 42
    (by decide) (by decide)

/-! ### C2: unfixed input at a root System or root Context is "no value" -/

/-- C2: for every in-range input-port index with no caller-fixed value, if the
System has no enclosing composition or the given Context is a root Context,
EvalAbstractInputImpl returns the distinguished no-value result (the C++
nullptr return), which is not a thrown error. -/
theorem eval_unconnected_input_no_value (s : SystemBase) (func : String)
    (context : ContextBase) (port_index : Nat)
    (hrange : port_index < s.num_input_ports)
    (hfixed : context.MaybeGetFixedInputPortValue port_index = none)
    (hroot : s.parent_service = none ∨ context.parent = none) :
    s.EvalAbstractInputImpl func context port_index = .no_value := by
  have hnot : ¬ s.num_input_ports ≤ port_index := Nat.not_le.mpr hrange
  rcases hroot with h | h
  · simp [SystemBase.EvalAbstractInputImpl, hnot, hfixed, h]
  · cases hps : s.parent_service <;>
      simp [SystemBase.EvalAbstractInputImpl, hnot, hfixed, h, hps]

/-- C2 witness: a concrete unfixed input of a root System evaluates to
no_value. -/
theorem eval_unconnected_input_no_value_witness :
    sample_root_system.EvalAbstractInputImpl "EvalAbstractInput"
      fresh_context 0 = .no_value :=
  eval_unconnected_input_no_value sample_root_system "EvalAbstractInput"
    fresh_context 0 (by decide) (by decide) (Or.inl (by decide))

/-! ### C3: out-of-range input-port indices -/

/-- C3 counterexample: at the concrete index -1, EvalInputPort throws the
negative-index out_of_range error, and the values interpolated into its
message carry no input-port count (named_count = none), contrary to the claim
that the message names the declared input-port count for every out-of-range
index. -/
theorem eval_input_negative_index_counterexample :
    sample_root_system.EvalInputPort "EvalAbstractInput" fresh_context (-1) =
      .thrown (.negativePortIndex "EvalAbstractInput" (-1) "::plant") ∧
    PortEvalError.named_count
      (.negativePortIndex "EvalAbstractInput" (-1) "::plant") = none := by
  exact ⟨by decide, rfl⟩

/-- C3 amended: for every index that is negative or at least the declared
input-port count, EvalInputPort throws an out_of_range error whose message
names the offending index and the System hierarchical pathname; the declared
input-port count is additionally named when the index is at least the count,
while the negative-index message omits it. -/
theorem eval_input_index_out_of_range (s : SystemBase) (func : String)
    (context : ContextBase) (port_index : Int)
    (h : port_index < 0 ∨ (s.num_input_ports : Int) ≤ port_index) :
    ∃ e : PortEvalError,
      s.EvalInputPort func context port_index = .thrown e ∧
      e.kind = .outOfRange ∧
      e.named_index = port_index ∧
      e.named_pathname = s.GetSystemPathname ∧
      e.named_count =
        (if port_index < 0 then none else some s.num_input_ports) := by
  rcases h with hneg | hge
  · refine ⟨.negativePortIndex func port_index s.GetSystemPathname, ?_, rfl,
      rfl, rfl, ?_⟩
    · simp [SystemBase.EvalInputPort, hneg, SystemBase.ThrowNegativePortIndex]
    · simp [PortEvalError.named_count, hneg]
  · have hpos : ¬ port_index < 0 := by omega
    have htn : s.num_input_ports ≤ port_index.toNat := by omega
    refine ⟨.inputPortIndexOutOfRange func port_index.toNat s.num_input_ports
      s.GetSystemPathname, ?_, rfl, ?_, rfl, ?_⟩
    · simp [SystemBase.EvalInputPort, hpos, SystemBase.EvalAbstractInputImpl,
        htn, SystemBase.ThrowInputPortIndexOutOfRange]
    · simp [PortEvalError.named_index]
      omega
    · simp [PortEvalError.named_count, hpos]

/-- C3 witness: the concrete index 5 against a one-input System throws the
error naming index 5, count 1 and the system pathname. -/
theorem eval_input_index_out_of_range_witness :
    (0 : Int) ≤ 5 ∧
    ∃ e : PortEvalError,
      sample_root_system.EvalInputPort "EvalAbstractInput" fresh_context 5 =
        .thrown e ∧
      e.kind = .outOfRange ∧
      e.named_index = 5 ∧
      e.named_pathname = sample_root_system.GetSystemPathname ∧
      e.named_count =
        (if (5 : Int) < 0 then none
         else some sample_root_system.num_input_ports) :=
  ⟨by decide,
   eval_input_index_out_of_range sample_root_system "EvalAbstractInput"
     fresh_context 5 (Or.inr (by decide))⟩

/-! ### C4: a Context is initialized exactly once -/

/-- C4: InitializeContextBase on an already-initialized Context fails with
PreconditionViolation and returns the Context unchanged (the DRAKE_DEMAND
aborts before any mutation); on a fresh Context it completes without error
and marks the Context initialized, so a second call on the result always
fails. -/
theorem initialize_context_base_exactly_once (s : SystemBase)
    (context : ContextBase) :
    (context.is_context_base_initialized = true →
      s.InitializeContextBase context =
        (context, some .preconditionViolation)) ∧
    (context.is_context_base_initialized = false →
      (s.InitializeContextBase context).2 = none ∧
      ((s.InitializeContextBase context).1).is_context_base_initialized =
        true ∧
      s.InitializeContextBase (s.InitializeContextBase context).1 =
        ((s.InitializeContextBase context).1,
         some .preconditionViolation)) := by
  constructor
  · intro h
    simp [SystemBase.InitializeContextBase, h]
  · intro h
    have h1 : (s.InitializeContextBase context).2 = none := by
      simp [SystemBase.InitializeContextBase, h]
    have h2 : ((s.InitializeContextBase context).1).is_context_base_initialized
        = true := by
      simp [SystemBase.InitializeContextBase, h]
    refine ⟨h1, h2, ?_⟩
    conv_lhs => rw [SystemBase.InitializeContextBase]
    rw [h2]
    simp

/-- C4 witness: on the concrete fresh Context the first initialization
succeeds and marks the Context, and repeating it fails; on an
already-initialized Context the call fails outright. -/
theorem initialize_context_base_exactly_once_witness :
    ((sample_root_system.InitializeContextBase fresh_context).2 = none ∧
     ((sample_root_system.InitializeContextBase
        fresh_context).1).is_context_base_initialized = true ∧
     sample_root_system.InitializeContextBase
        (sample_root_system.InitializeContextBase fresh_context).1 =
       ((sample_root_system.InitializeContextBase fresh_context).1,
        some .preconditionViolation)) ∧
    sample_root_system.InitializeContextBase
        { fresh_context with is_context_base_initialized := true } =
      ({ fresh_context with is_context_base_initialized := true },
       some .preconditionViolation) :=
  ⟨(initialize_context_base_exactly_once sample_root_system fresh_context).2
      (by decide),
   (initialize_context_base_exactly_once sample_root_system
      { fresh_context with is_context_base_initialized := true }).1
      (by decide)⟩

/-! ### C5: an empty prerequisite set is rejected with no partial mutation -/

/-- C5: declaring a cache entry with an empty prerequisite-ticket set raises
PreconditionViolation (the CacheEntry constructor throws before emplace_back
runs) and no descriptor is added to the cache-entry list, both through
DeclareCacheEntryWithKnownTicket and through DeclareCacheEntry. -/
theorem declare_cache_entry_empty_prerequisites (s : SystemBase)
    (known_ticket : DependencyTicket) (description : String)
    (value_producer : ValueProducer) :
    s.DeclareCacheEntryWithKnownTicket known_ticket description
        value_producer [] = (s, .error .preconditionViolation) ∧
    (s.DeclareCacheEntry description value_producer []).2 =
      .error .preconditionViolation ∧
    ((s.DeclareCacheEntry description value_producer []).1).cache_entries =
      s.cache_entries := by
  refine ⟨?_, ?_, ?_⟩ <;>
    simp [SystemBase.DeclareCacheEntry,
      SystemBase.DeclareCacheEntryWithKnownTicket,
      SystemBase.assign_next_dependency_ticket, CacheEntry.make]

/-! ### C8: a successful declaration appends at index = previous count -/

/-- C8: when DeclareCacheEntryWithKnownTicket succeeds, the new descriptor
carries index = the number of entries declared before the call, the
descriptor is appended at the back of the ordered cache-entry list, the
returned value is the stored back entry, and no Context in the process is
touched. -/
theorem declare_cache_entry_appends (w : World)
    (known_ticket : DependencyTicket) (description : String)
    (value_producer : ValueProducer)
    (prerequisites_of_calc : List DependencyTicket)
    (w' : World) (entry : CacheEntry)
    (h : w.DeclareCacheEntryWithKnownTicket known_ticket description
        value_producer prerequisites_of_calc = (w', .ok entry)) :
    entry.cache_index = w.system.num_cache_entries ∧
    w'.system.cache_entries = w.system.cache_entries ++ [entry] ∧
    w'.system.cache_entries.getLast? = some entry ∧
    w'.contexts = w.contexts := by
  unfold World.DeclareCacheEntryWithKnownTicket
    SystemBase.DeclareCacheEntryWithKnownTicket CacheEntry.make at h
  by_cases he : prerequisites_of_calc.isEmpty
  · simp [he] at h
  · simp [he, Prod.ext_iff] at h
    obtain ⟨hw, hentry⟩ := h
    subst hw
    refine ⟨?_, ?_, ?_, ?_⟩
    · rw [← hentry]
    · simp [← hentry]
    · simp [← hentry]
    · rfl

/-- The concrete World used by the C8 witness. -/
def c8_world : World :=
  { system := sample_root_system, contexts := [fresh_context] }

/-- The descriptor produced by the C8 witness call. -/
def c8_entry : CacheEntry :=
  { cache_index := 0, ticket := 30, description := "xdot",
    value_producer := { allocate_value := 7 }, prerequisites := [1],
    disabled_by_default := false }

/-- The World after the C8 witness call. -/
def c8_world_after : World :=
  (c8_world.DeclareCacheEntryWithKnownTicket 30 "xdot"
    { allocate_value := 7 } [1]).1

/-- C8 witness: a concrete successful declaration. -/
theorem declare_cache_entry_appends_witness :
    c8_entry.cache_index = c8_world.system.num_cache_entries ∧
    c8_world_after.system.cache_entries =
      c8_world.system.cache_entries ++ [c8_entry] ∧
    c8_world_after.system.cache_entries.getLast? = some c8_entry ∧
    c8_world_after.contexts = c8_world.contexts :=
  declare_cache_entry_appends c8_world 30 "xdot" { allocate_value := 7 } [1]
    c8_world_after c8_entry rfl

/-! ### C9: DeclareCacheEntry delegates to the known-ticket variant -/

/-- C9: DeclareCacheEntry behaves exactly like DeclareCacheEntryWithKnownTicket
applied to the freshly allocated next dependency ticket: the same descriptor
is produced and the System is left in the same state. -/
theorem declare_cache_entry_is_known_ticket_at_next (s : SystemBase)
    (description : String) (value_producer : ValueProducer)
    (prerequisites_of_calc : List DependencyTicket) :
    s.DeclareCacheEntry description value_producer prerequisites_of_calc =
      (s.assign_next_dependency_ticket).2.DeclareCacheEntryWithKnownTicket
        (s.assign_next_dependency_ticket).1 description value_producer
        prerequisites_of_calc := rfl

/-! ### C6: the Context/System mismatch diagnosis -/

/-- The enclosing composition used by the C6 examples: parent pathname
"::diagram", root System identity 1. -/
def c6_parent : ParentService :=
  { parent_pathname := "::diagram", root_system_id := 1 }

/-- A subsystem of that composition (identity 2). -/
def c6_subsystem : SystemBase :=
  { sample_root_system with
    name := "adder",
    system_type := "Adder",
    system_id := 2,
    parent_service := some c6_parent }

/-- A subcontext of the composition root Context (root identity 1) that
belongs to a sibling subsystem (own identity 3). -/
def c6_sibling_subcontext : ContextBase :=
  { fresh_context with
    system_id := 3,
    pathname := "::diagram::other",
    parent := some (.top 1) }

/-- C6 counterexample: the claim orders branch (a) by the transitive-root
identity of the passed Context, but the code (line 300) compares the Context
own tagged identity with the root System identity. Passing a subcontext of
the right root Context but belonging to a sibling subsystem (own id 3,
transitive root id 1 = the expected root) satisfies the claimed condition of
branch (a), yet the code raises the generic mismatch (c), not the
whole-composition message. -/
theorem validate_context_mismatch_counterexample :
    c6_subsystem.parent_service = some c6_parent ∧
    c6_sibling_subcontext.root_context_system_id = c6_parent.root_system_id ∧
    c6_subsystem.ThrowValidateContextMismatch c6_sibling_subcontext =
      .genericMismatch "Adder" "::diagram::adder" "::diagram::other" ∧
    c6_subsystem.ThrowValidateContextMismatch c6_sibling_subcontext ≠
      .rootContextPassedToSubsystem "Adder" "::diagram::adder" := by
  refine ⟨rfl, rfl, by decide, by decide⟩

/-- C6 amended: ThrowValidateContextMismatch never returns normally (its
codomain here is the error type), and raises in this priority order:
(a) if this System has an enclosing composition and the passed Context OWN
tagged identity equals the composition root System identity, the message
naming the subsystem and suggesting the correct accessor; (b) else if the
passed Context transitive root is rooted at this System, the
subcontext-passed-to-root message; (c) otherwise the generic mismatch naming
both pathnames. -/
theorem validate_context_mismatch_priority (s : SystemBase)
    (context : ContextBase) :
    (∀ ps, s.parent_service = some ps →
        context.system_id = ps.root_system_id →
        s.ThrowValidateContextMismatch context =
          .rootContextPassedToSubsystem s.system_type s.GetSystemPathname) ∧
    ((s.parent_service = none ∨
        ∃ ps, s.parent_service = some ps ∧
          context.system_id ≠ ps.root_system_id) →
      (context.root_context_system_id = s.system_id →
        s.ThrowValidateContextMismatch context =
          .subcontextPassedToRoot context.pathname) ∧
      (context.root_context_system_id ≠ s.system_id →
        s.ThrowValidateContextMismatch context =
          .genericMismatch s.system_type s.GetSystemPathname
            context.pathname)) := by
  constructor
  · intro ps hps hid
    simp [SystemBase.ThrowValidateContextMismatch, hps, hid]
  · intro hfirst
    have htail : s.ThrowValidateContextMismatch context =
        s.validate_context_mismatch_tail context := by
      rcases hfirst with h | ⟨ps, hps, hne⟩
      · simp [SystemBase.ThrowValidateContextMismatch, h]
      · simp [SystemBase.ThrowValidateContextMismatch, hps, hne]
    refine ⟨fun hroot => ?_, fun hroot => ?_⟩
    · rw [htail]
      simp [SystemBase.validate_context_mismatch_tail, hroot]
    · rw [htail]
      simp [SystemBase.validate_context_mismatch_tail, hroot]

/-- The composition root System of the C6 examples (identity 1, no enclosing
composition). -/
def c6_root_system : SystemBase :=
  { sample_root_system with
    name := "diagram",
    system_type := "Diagram",
    system_id := 1,
    parent_service := none }

/-- The root Context of the composition (identity 1, no parent). -/
def c6_root_context : ContextBase :=
  { fresh_context with
    system_id := 1,
    pathname := "::diagram",
    parent := none }

/-- A subcontext of that root Context, belonging to the adder subsystem. -/
def c6_adder_subcontext : ContextBase :=
  { fresh_context with
    system_id := 2,
    pathname := "::diagram::adder",
    parent := some (.top 1) }

/-- C6 witness: branch (a) at the subsystem passed the whole-composition root
Context, and branch (b) at the root System passed a subcontext. -/
theorem validate_context_mismatch_priority_witness :
    c6_subsystem.ThrowValidateContextMismatch c6_root_context =
      .rootContextPassedToSubsystem c6_subsystem.system_type
        c6_subsystem.GetSystemPathname ∧
    c6_root_system.ThrowValidateContextMismatch c6_adder_subcontext =
      .subcontextPassedToRoot c6_adder_subcontext.pathname :=
  ⟨(validate_context_mismatch_priority c6_subsystem c6_root_context).1
      c6_parent rfl rfl,
   ((validate_context_mismatch_priority c6_root_system
      c6_adder_subcontext).2 (Or.inl rfl)).1 rfl⟩

/-! ### C7: one deprecation warning per process per key -/

/-- One WarnPortDeprecation call either leaves g_warned_hash unchanged and
emits nothing, or emits while inserting its key, which was not yet present. -/
lemma warn_step_cases (st : WarnProcessState) (call : WarnCall) :
    ((WarnPortDeprecation st call).1.g_warned_hash = st.g_warned_hash ∧
      (WarnPortDeprecation st call).2 = false) ∨
    ((WarnPortDeprecation st call).1.g_warned_hash =
        call.key :: st.g_warned_hash ∧
      (WarnPortDeprecation st call).2 = true ∧
      call.key ∉ st.g_warned_hash) := by
  unfold WarnPortDeprecation
  by_cases h1 : call.port_instance ∈ st.instance_warned
  · left
    simp [h1]
  · by_cases h2 : call.key ∈ st.g_warned_hash
    · left
      simp [h1, h2]
    · right
      simp [h1, h2]

/-- Once a key is in g_warned_hash, no later call in the run emits it. -/
lemma warn_run_count_zero_of_mem (k : PortWarnKey) :
    ∀ (calls : List WarnCall) (st : WarnProcessState),
      k ∈ st.g_warned_hash → (warn_run st calls).count k = 0
  | [], _, _ => by simp [warn_run]
  | call :: rest, st, hk => by
      rcases warn_step_cases st call with ⟨hg, he⟩ | ⟨hg, he, hnot⟩
      · have hk2 : k ∈ (WarnPortDeprecation st call).1.g_warned_hash := by
          rw [hg]; exact hk
        simp only [warn_run, he, if_neg Bool.false_ne_true, List.nil_append]
        exact warn_run_count_zero_of_mem k rest _ hk2
      · have hne : ¬ (call.key = k) := fun h => hnot (h ▸ hk)
        have hk2 : k ∈ (WarnPortDeprecation st call).1.g_warned_hash := by
          rw [hg]; exact List.mem_cons_of_mem _ hk
        have hrest := warn_run_count_zero_of_mem k rest _ hk2
        simp [warn_run, he, List.count_append, List.count_cons, hne, hrest]

/-- Over any run from any state, each key is emitted at most once. -/
lemma warn_run_count_le_one (k : PortWarnKey) :
    ∀ (calls : List WarnCall) (st : WarnProcessState),
      (warn_run st calls).count k ≤ 1
  | [], _ => by simp [warn_run]
  | call :: rest, st => by
      rcases warn_step_cases st call with ⟨_, he⟩ | ⟨hg, he, _⟩
      · simp only [warn_run, he, if_neg Bool.false_ne_true, List.nil_append]
        exact warn_run_count_le_one k rest _
      · by_cases hke : call.key = k
        · have hk2 : k ∈ (WarnPortDeprecation st call).1.g_warned_hash := by
            rw [hg, hke]
            exact List.mem_cons_self _ _
          have hrest := warn_run_count_zero_of_mem k rest _ hk2
          simp [warn_run, he, List.count_append, List.count_cons, hke, hrest]
        · have hle := warn_run_count_le_one k rest (WarnPortDeprecation st call).1
          simp [warn_run, he, List.count_append, List.count_cons, hke, hle]

/-- C7: over every sequence of WarnPortDeprecation calls in one process
(starting from the process initial state), at most one warning is emitted per
distinct (declaring System type, input-or-output direction, port name) key,
no matter how many System, Context or port instances the calls go through;
in particular every call after the first warning for a key returns without
warning. -/
theorem warn_port_deprecation_once_per_key (calls : List WarnCall)
    (k : PortWarnKey) :
    (warn_run warn_initial_state calls).count k ≤ 1 :=
  warn_run_count_le_one k calls warn_initial_state

/-! ### C10: the cache slots built by InitializeContextBase -/

/-- The CacheEntryValue that one iteration of the cache-construction loop
stores: seeded with the entry Allocate value, caching enabled unless the
entry is disabled by default. -/
def cache_value_of (entry : CacheEntry) : CacheEntryValue :=
  { cache_index := entry.cache_index, ticket := entry.ticket,
    description := entry.description, stored_value := some entry.Allocate,
    caching_enabled := !entry.disabled_by_default }

lemma cache_loop_step_cache (ctx : ContextBase) (entry : CacheEntry) :
    (cache_loop_step ctx entry).cache = ctx.cache ++ [cache_value_of entry] := by
  unfold cache_loop_step cache_value_of
  cases h : entry.disabled_by_default <;> simp [h]

lemma cache_loop_cache :
    ∀ (entries : List CacheEntry) (ctx : ContextBase),
      (cache_loop entries ctx).cache = ctx.cache ++ entries.map cache_value_of
  | [], _ => by simp [cache_loop]
  | e :: es, ctx => by
      have h1 := cache_loop_cache es (cache_loop_step ctx e)
      have h0 : cache_loop (e :: es) ctx = cache_loop es (cache_loop_step ctx e) :=
        rfl
      rw [h0, h1, cache_loop_step_cache]
      simp

lemma make_trackers_cache (t : DependencyTicket) :
    ∀ (infos : List TrackerInfo) (ctx : ContextBase),
      (make_trackers t infos ctx).cache = ctx.cache
  | [], _ => rfl
  | i :: is, ctx => make_trackers_cache t is (make_trackers_step t ctx i)

lemma create_source_trackers_cache (s : SystemBase) (ctx : ContextBase) :
    (s.CreateSourceTrackers ctx).cache = ctx.cache := by
  simp [SystemBase.CreateSourceTrackers, make_trackers_cache]

/-- C10: when InitializeContextBase succeeds on a freshly constructed Context
(empty cache), the resulting per-Context cache holds one slot per declared
cache entry, in declaration order; every slot is seeded with the value
produced by that entry Allocate capability, and caching is disabled exactly
on the slots whose entry carries the disabled-by-default flag (the others
start with caching enabled). -/
theorem initialize_context_seeds_cache (s : SystemBase)
    (context : ContextBase) (result : ContextBase)
    (hfresh : context.cache = [])
    (h : s.InitializeContextBase context = (result, none)) :
    result.cache.map CacheEntryValue.stored_value =
      s.cache_entries.map (fun e => some e.Allocate) ∧
    result.cache.map CacheEntryValue.caching_enabled =
      s.cache_entries.map (fun e => !e.disabled_by_default) := by
  by_cases hinit : context.is_context_base_initialized
  · simp [SystemBase.InitializeContextBase, hinit] at h
  · simp only [SystemBase.InitializeContextBase, hinit, Bool.false_eq_true,
      if_false, if_neg, Prod.mk.injEq, and_true] at h
    have hcache : result.cache = s.cache_entries.map cache_value_of := by
      rw [← h]
      simp only [cache_loop_cache, create_source_trackers_cache]
      simp [hfresh]
    rw [hcache]
    constructor <;> simp [cache_value_of]

/-- The System used by the C10 witness: two cache entries, the second
disabled by default. -/
def c10_system : SystemBase :=
  { sample_root_system with
    cache_entries :=
      [{ cache_index := 0, ticket := 40, description := "entryA",
         value_producer := { allocate_value := 5 }, prerequisites := [1],
         disabled_by_default := false },
       { cache_index := 1, ticket := 41, description := "entryB",
         value_producer := { allocate_value := 6 }, prerequisites := [40],
         disabled_by_default := true }] }

/-- C10 witness: the concrete initialization seeds both slots and disables
caching exactly on the flagged entry. -/
theorem initialize_context_seeds_cache_witness :
    ((c10_system.InitializeContextBase fresh_context).1).cache.map
        CacheEntryValue.stored_value =
      c10_system.cache_entries.map (fun e => some e.Allocate) ∧
    ((c10_system.InitializeContextBase fresh_context).1).cache.map
        CacheEntryValue.caching_enabled =
      c10_system.cache_entries.map (fun e => !e.disabled_by_default) :=
  initialize_context_seeds_cache c10_system fresh_context
    (c10_system.InitializeContextBase fresh_context).1 rfl (by decide)
